import Mathlib

/-!
# Verification of `voice_assistant/transcription.py`

A shallow embedding of the transcription module.  External effects
(file reads, HTTP calls, SDK calls, the LLM completion call) are mediated
by a `World` record of oracles; the one piece of process state, the
`checked_fastwhisperapi` flag, is threaded explicitly; the probe issued by
`check_fastwhisperapi` and the request built by the Gemini adapter are
recorded as observable outputs.
-/

/-- A JSON value, as produced by `response.json()` / `json.loads`. -/
inductive Json where
  | null : Json
  | bool : Bool → Json
  | num : Int → Json
  | str : String → Json
  | arr : List Json → Json
  | obj : List (String × Json) → Json

/-- The kinds of Python exception that can cross the module's boundaries. -/
inductive PyErr where
  | generic : String → PyErr
  | valueError : String → PyErr
  | keyError : String → PyErr
  | indexError : PyErr
  | typeError : PyErr
  | ioError : PyErr
  | sdkError : PyErr
deriving Repr, DecidableEq

/-- `d[k]` on a Python value parsed from JSON: `KeyError` when the key is
absent, `TypeError` when the value is not a dict. -/
def dictGet (j : Json) (k : String) : Except PyErr Json :=
  match j with
  | .obj fields =>
      match List.lookup k fields with
      | some v => .ok v
      | none => .error (.keyError k)
  | _ => .error .typeError

/-- `l[i]` on a Python value parsed from JSON: `IndexError` when out of
range, `TypeError` when the value is not a list. -/
def listIdx (j : Json) (i : Nat) : Except PyErr Json :=
  match j with
  | .arr xs =>
      match xs.get? i with
      | some v => .ok v
      | none => .error .indexError
  | _ => .error .typeError

/-- `d.get(k, dflt)`: the value at `k` when present, else the default;
an `AttributeError` (modelled as `typeError`) when the value is not a dict. -/
def jsonGet (j : Json) (k : String) (dflt : Json) : Except PyErr Json :=
  match j with
  | .obj fields => .ok ((List.lookup k fields).getD dflt)
  | _ => .error .typeError

/-- The base64 alphabet used by `base64.b64encode`. -/
def b64Alphabet : List Char :=
  "ABCDEFGHIJKLMNOPQRSTUVWXYZabcdefghijklmnopqrstuvwxyz0123456789+/".toList

/-- The character encoding a 6-bit group. -/
def b64Char (n : Nat) : Char := b64Alphabet.getD n 'A'

/-- The 6-bit value of a base64 character, `none` for a non-alphabet
character. -/
def b64CharVal (c : Char) : Option Nat :=
  let i := b64Alphabet.indexOf c
  if i < 64 then some i else none

/-- `base64.b64encode` on a byte sequence (bytes as naturals `< 256`):
3-byte groups become 4 characters, a 1- or 2-byte tail is padded with
`=`. -/
def b64encode : List Nat → List Char
  | [] => []
  | [b1] => [b64Char (b1 / 4), b64Char (b1 % 4 * 16), '=', '=']
  | [b1, b2] =>
      [b64Char (b1 / 4), b64Char (b1 % 4 * 16 + b2 / 16), b64Char (b2 % 16 * 4), '=']
  | b1 :: b2 :: b3 :: rest =>
      b64Char (b1 / 4) :: b64Char (b1 % 4 * 16 + b2 / 16) ::
        b64Char (b2 % 16 * 4 + b3 / 64) :: b64Char (b3 % 64) :: b64encode rest

/-- `base64.b64decode` restricted to well-padded input: 4 characters at a
time, with `=` padding allowed only at the very end. -/
def b64decode : List Char → Option (List Nat)
  | [] => some []
  | c1 :: c2 :: c3 :: c4 :: rest =>
      match b64CharVal c1, b64CharVal c2 with
      | some v1, some v2 =>
          if c3 = '=' then
            if c4 = '=' ∧ rest = [] then some [v1 * 4 + v2 / 16] else none
          else
            match b64CharVal c3 with
            | some v3 =>
                if c4 = '=' then
                  if rest = [] then some [v1 * 4 + v2 / 16, v2 % 16 * 16 + v3 / 4] else none
                else
                  match b64CharVal c4 with
                  | some v4 =>
                      (b64decode rest).map fun tail =>
                        (v1 * 4 + v2 / 16) :: (v2 % 16 * 16 + v3 / 4) ::
                          (v3 % 4 * 64 + v4) :: tail
                  | none => none
            | none => none
      | _, _ => none
  | _ => none

/-- The multimodal chat-completion request built by
`_transcribe_with_gemini`. -/
structure GeminiRequest where
  model : String
  api_key : String
  instruction : String
  attachment : String
deriving Repr, DecidableEq

/-- Oracles for the external world of one `transcribe_audio` call: the
bytes behind the audio path (`none` = unreadable), the process
environment, and each backend's reply. -/
structure World where
  fileBytes : Option (List Nat)
  env : List (String × String)
  infoProbe : Except Unit Nat
  fastPost : Except PyErr Json
  openaiSDK : Except PyErr String
  groqSDK : Except PyErr String
  deepgramCall : Except PyErr Json
  llmCompletion : GeminiRequest → Except PyErr String

/-- Initial value of the module-level `checked_fastwhisperapi` flag. -/
def checked_fastwhisperapi_init : Bool := false

/-- Outcome of one invocation of `check_fastwhisperapi`: the raised or
normal result, the flag after the call, and whether the GET probe to
`/info` was issued. -/
structure CheckResult where
  result : Except PyErr Unit
  newFlag : Bool
  probed : Bool
deriving Repr

/-- `check_fastwhisperapi`: when the flag is unset, issue the GET probe;
a transport error or a non-200 status raises and leaves the flag unset;
a 200 status sets the flag. When the flag is set, do nothing. -/
def check_fastwhisperapi (checked : Bool) (probe : Except Unit Nat) : CheckResult :=
  if checked then ⟨.ok (), checked, false⟩
  else
    match probe with
    | .error _ => ⟨.error (.generic "FastWhisperAPI is not running"), checked, true⟩
    | .ok status =>
        if status ≠ 200 then ⟨.error (.generic "FastWhisperAPI is not running"), checked, true⟩
        else ⟨.ok (), true, true⟩

/-- The results of a sequence of `check_fastwhisperapi` invocations,
threading the flag, given the probe outcome each invocation would see. -/
def runTrace (checked : Bool) : List (Except Unit Nat) → List CheckResult
  | [] => []
  | p :: ps =>
      let r := check_fastwhisperapi checked p
      r :: runTrace r.newFlag ps

/-- How many invocations in a trace issued the GET probe. -/
def probeCount (trace : List CheckResult) : Nat :=
  (trace.filter (·.probed)).length

/-- How many invocations in a trace issued a probe that succeeded
(set the flag). -/
def successfulProbeCount (trace : List CheckResult) : Nat :=
  (trace.filter (fun r => r.probed && r.newFlag)).length

/-- Number of `false → true` edges in a boolean trace starting from
`prev`. -/
def riseCount (prev : Bool) : List Bool → Nat
  | [] => 0
  | b :: bs => (if prev = false ∧ b = true then 1 else 0) + riseCount b bs

/-- `_transcribe_with_openai`: open the audio file, call the SDK, return
`transcription.text`. -/
def _transcribe_with_openai (w : World) : Except PyErr Json :=
  match w.fileBytes with
  | none => .error .ioError
  | some _ =>
      match w.openaiSDK with
      | .error e => .error e
      | .ok t => .ok (.str t)

/-- `_transcribe_with_groq`: open the audio file, call the SDK, return
`transcription.text`. -/
def _transcribe_with_groq (w : World) : Except PyErr Json :=
  match w.fileBytes with
  | none => .error .ioError
  | some _ =>
      match w.groqSDK with
      | .error e => .error e
      | .ok t => .ok (.str t)

/-- The fixed JSON path `data["results"]["channels"][0]["alternatives"][0]["transcript"]`
descended by `_transcribe_with_deepgram`. -/
def deepgramExtract (data : Json) : Except PyErr Json :=
  match dictGet data "results" with
  | .error e => .error e
  | .ok res =>
      match dictGet res "channels" with
      | .error e => .error e
      | .ok chs =>
          match listIdx chs 0 with
          | .error e => .error e
          | .ok c0 =>
              match dictGet c0 "alternatives" with
              | .error e => .error e
              | .ok alts =>
                  match listIdx alts 0 with
                  | .error e => .error e
                  | .ok a0 => dictGet a0 "transcript"

/-- `_transcribe_with_deepgram`: read the audio file, perform the
prerecorded-transcription call, parse the fixed path out of the JSON
reply; its own `except` clause logs and re-raises, so every error
propagates unchanged. -/
def _transcribe_with_deepgram (w : World) : Except PyErr Json :=
  match w.fileBytes with
  | none => .error .ioError
  | some _ =>
      match w.deepgramCall with
      | .error e => .error e
      | .ok data => deepgramExtract data

/-- `_transcribe_with_fastwhisperapi`: run the readiness check, open the
audio file, POST it, and take `response_json.get('text', ...)` with the
literal fallback.  Returns the result together with the flag after the
call and whether the probe was issued. -/
def _transcribe_with_fastwhisperapi (w : World) (checked : Bool) :
    Except PyErr Json × Bool × Bool :=
  let c := check_fastwhisperapi checked w.infoProbe
  match c.result with
  | .error e => (.error e, c.newFlag, c.probed)
  | .ok _ =>
      match w.fileBytes with
      | none => (.error .ioError, c.newFlag, c.probed)
      | some _ =>
          match w.fastPost with
          | .error e => (.error e, c.newFlag, c.probed)
          | .ok rj =>
              (jsonGet rj "text" (.str "No text found in the response."), c.newFlag, c.probed)

/-- The fixed instruction text sent by `_transcribe_with_gemini`. -/
def geminiInstruction : String :=
  "Just transcribe the Tamil audio. If no audio is detected, just say '<empty>'."

/-- The request `_transcribe_with_gemini` passes to `litellm.completion`:
the model from the environment, the caller's key, the fixed instruction,
and the base64 data-URI attachment built from the audio bytes. -/
def buildGeminiRequest (modelName api_key : String) (audio_bytes : List Nat) : GeminiRequest :=
  { model := modelName
    api_key := api_key
    instruction := geminiInstruction
    attachment := "data:audio/mp3;base64," ++ String.mk (b64encode audio_bytes) }

/-- `_transcribe_with_gemini`: `os.environ["GEMINI_MODEL"]` (a `KeyError`
when absent), `Path(...).read_bytes()`, base64-encode, call
`litellm.completion`, return the reply content.  The second component
records the request handed to the completion call, `none` when the
adapter failed before issuing it. -/
def _transcribe_with_gemini (w : World) (api_key : String) :
    Except PyErr Json × Option GeminiRequest :=
  match List.lookup "GEMINI_MODEL" w.env with
  | none => (.error (.keyError "GEMINI_MODEL"), none)
  | some modelName =>
      match w.fileBytes with
      | none => (.error .ioError, none)
      | some audio_bytes =>
          let req := buildGeminiRequest modelName api_key audio_bytes
          match w.llmCompletion req with
          | .error e => (.error e, some req)
          | .ok t => (.ok (.str t), some req)

/-- The branch chain inside `transcribe_audio`'s `try` block: route to the
adapter selected by `model`, or raise `ValueError` for an unknown
provider.  Returns the result together with the flag after the call. -/
def transcribe_body (model api_key audio_file_path : String)
    (local_model_path : Option String) (w : World) (checked : Bool) :
    Except PyErr Json × Bool :=
  if model = "openai" then (_transcribe_with_openai w, checked)
  else if model = "groq" then (_transcribe_with_groq w, checked)
  else if model = "deepgram" then (_transcribe_with_deepgram w, checked)
  else if model = "gemini" then ((_transcribe_with_gemini w api_key).1, checked)
  else if model = "fastwhisperapi" then
    let r := _transcribe_with_fastwhisperapi w checked
    (r.1, r.2.1)
  else if model = "local" then (.ok (.str "Transcribed text from local model"), checked)
  else (.error (.valueError "Unsupported transcription model"), checked)

/-- `transcribe_audio`: the `try` block around the branch chain; any
exception is logged and replaced by `Exception("Error in transcribing
audio")`. -/
def transcribe_audio (model api_key audio_file_path : String)
    (local_model_path : Option String) (w : World) (checked : Bool) :
    Except PyErr Json × Bool :=
  match transcribe_body model api_key audio_file_path local_model_path w checked with
  | (.ok v, st) => (.ok v, st)
  | (.error _, st) => (.error (.generic "Error in transcribing audio"), st)

/-! ## Base64 lemmas -/

theorem b64CharVal_b64Char : ∀ n, n < 64 → b64CharVal (b64Char n) = some n := by decide

theorem b64Char_ne_pad : ∀ n, n < 64 → b64Char n ≠ '=' := by decide

/-- Decoding inverts encoding on any byte sequence. -/
theorem b64decode_b64encode (bs : List Nat) (h : ∀ b ∈ bs, b < 256) :
    b64decode (b64encode bs) = some bs := by
  induction bs using b64encode.induct with
  | case1 => simp [b64encode, b64decode]
  | case2 b1 =>
    have hb1 : b1 < 256 := h b1 (by simp)
    have h1 := b64CharVal_b64Char (b1 / 4) (by omega)
    have h2 := b64CharVal_b64Char (b1 % 4 * 16) (by omega)
    simp [b64encode, b64decode, h1, h2]
    omega
  | case3 b1 b2 =>
    have hb1 : b1 < 256 := h b1 (by simp)
    have hb2 : b2 < 256 := h b2 (by simp)
    have h1 := b64CharVal_b64Char (b1 / 4) (by omega)
    have h2 := b64CharVal_b64Char (b1 % 4 * 16 + b2 / 16) (by omega)
    have h3 := b64CharVal_b64Char (b2 % 16 * 4) (by omega)
    have hne3 := b64Char_ne_pad (b2 % 16 * 4) (by omega)
    simp [b64encode, b64decode, h1, h2, h3, hne3]
    omega
  | case4 b1 b2 b3 rest ih =>
    have hb1 : b1 < 256 := h b1 (by simp)
    have hb2 : b2 < 256 := h b2 (by simp)
    have hb3 : b3 < 256 := h b3 (by simp)
    have h1 := b64CharVal_b64Char (b1 / 4) (by omega)
    have h2 := b64CharVal_b64Char (b1 % 4 * 16 + b2 / 16) (by omega)
    have h3 := b64CharVal_b64Char (b2 % 16 * 4 + b3 / 64) (by omega)
    have h4 := b64CharVal_b64Char (b3 % 64) (by omega)
    have hne3 := b64Char_ne_pad (b2 % 16 * 4 + b3 / 64) (by omega)
    have hne4 := b64Char_ne_pad (b3 % 64) (by omega)
    have hrest : b64decode (b64encode rest) = some rest :=
      ih (fun b hb => h b (by simp [hb]))
    simp [b64encode, b64decode, h1, h2, h3, h4, hne3, hne4, hrest]
    omega

/-! ## Readiness-flag lemmas -/

theorem check_fastwhisperapi_true (p : Except Unit Nat) :
    check_fastwhisperapi true p = ⟨.ok (), true, false⟩ := rfl

theorem runTrace_true_mem (ps : List (Except Unit Nat)) :
    ∀ r ∈ runTrace true ps, r.probed = false ∧ r.newFlag = true := by
  induction ps with
  | nil => simp [runTrace]
  | cons p ps ih =>
    intro r hr
    simp only [runTrace, check_fastwhisperapi_true] at hr
    rcases List.mem_cons.mp hr with rfl | hr
    · exact ⟨rfl, rfl⟩
    · exact ih r hr

theorem probeCount_runTrace_true (ps : List (Except Unit Nat)) :
    probeCount (runTrace true ps) = 0 := by
  induction ps with
  | nil => rfl
  | cons p ps ih => simpa [runTrace, check_fastwhisperapi, probeCount] using ih

theorem successfulProbeCount_cons (r : CheckResult) (t : List CheckResult) :
    successfulProbeCount (r :: t) =
      (if r.probed && r.newFlag then 1 else 0) + successfulProbeCount t := by
  by_cases hcond : (r.probed && r.newFlag) = true
  · simp [successfulProbeCount, List.filter_cons, hcond]
    omega
  · simp [successfulProbeCount, List.filter_cons, hcond]

theorem successfulProbeCount_runTrace_true (ps : List (Except Unit Nat)) :
    successfulProbeCount (runTrace true ps) = 0 := by
  induction ps with
  | nil => rfl
  | cons p ps ih =>
    simpa [runTrace, check_fastwhisperapi, successfulProbeCount] using ih

theorem riseCount_runTrace_true (ps : List (Except Unit Nat)) :
    riseCount true ((runTrace true ps).map (·.newFlag)) = 0 := by
  induction ps with
  | nil => rfl
  | cons p ps ih => simpa [runTrace, check_fastwhisperapi, riseCount] using ih

/-- A world in which every external interaction fails. -/
def emptyWorld : World :=
  { fileBytes := none
    env := []
    infoProbe := .error ()
    fastPost := .error .sdkError
    openaiSDK := .error .sdkError
    groqSDK := .error .sdkError
    deepgramCall := .error .sdkError
    llmCompletion := fun _ => .error .sdkError }

/-! ## Claim theorems -/

/-- Claim C1: whenever the branch chain selected by `transcribe_audio`
raises any exception, `transcribe_audio` raises the single uniform
generic error `Exception("Error in transcribing audio")`, the same
regardless of the underlying exception. -/
theorem transcribe_audio_uniform_failure
    (model api_key audio_file_path : String) (local_model_path : Option String)
    (w : World) (checked : Bool) (e : PyErr)
    (h : (transcribe_body model api_key audio_file_path local_model_path w checked).1 =
      .error e) :
    (transcribe_audio model api_key audio_file_path local_model_path w checked).1 =
      .error (.generic "Error in transcribing audio") := by
  unfold transcribe_audio
  rcases hb : transcribe_body model api_key audio_file_path local_model_path w checked
    with ⟨res, st⟩
  rw [hb] at h
  cases res with
  | ok v => simp at h
  | error e0 => rfl

/-- Witness for C1 at a concrete input: with an unreadable audio file the
openai branch raises `IOError`, and the dispatcher reports the generic
failure. -/
theorem transcribe_audio_uniform_failure_witness :
    (transcribe_body "openai" "k" "a.wav" none emptyWorld false).1 = .error .ioError
  ∧ (transcribe_audio "openai" "k" "a.wav" none emptyWorld false).1 =
      .error (.generic "Error in transcribing audio") :=
  ⟨rfl, transcribe_audio_uniform_failure "openai" "k" "a.wav" none emptyWorld false
    .ioError rfl⟩

/-- Claim C2: for every provider string outside the known set,
`transcribe_audio` raises the generic transcription-failure error — it
never returns a value and never falls back to an adapter. -/
theorem transcribe_audio_unknown_provider_raises
    (model : String)
    (h : model ∉ ["openai", "groq", "deepgram", "gemini", "fastwhisperapi", "local"])
    (api_key audio_file_path : String) (local_model_path : Option String)
    (w : World) (checked : Bool) :
    (transcribe_audio model api_key audio_file_path local_model_path w checked).1 =
      .error (.generic "Error in transcribing audio") := by
  simp only [List.mem_cons, List.not_mem_nil, or_false, not_or] at h
  obtain ⟨h1, h2, h3, h4, h5, h6⟩ := h
  simp [transcribe_audio, transcribe_body, h1, h2, h3, h4, h5, h6]

/-- Witness for C2 at the concrete provider string `whisperx`. -/
theorem transcribe_audio_unknown_provider_raises_witness :
    (transcribe_audio "whisperx" "k" "a.wav" none emptyWorld false).1 =
      .error (.generic "Error in transcribing audio") :=
  transcribe_audio_unknown_provider_raises "whisperx" (by decide) "k" "a.wav" none
    emptyWorld false

/-- Claim C3: the readiness flag starts false, rises to true at most once
and is never reset, and while it is true no invocation of
`check_fastwhisperapi` issues the GET probe. -/
theorem checked_fastwhisperapi_flag_invariants :
    checked_fastwhisperapi_init = false
  ∧ (∀ p, (check_fastwhisperapi true p).newFlag = true)
  ∧ (∀ ps, ∀ r ∈ runTrace true ps, r.probed = false)
  ∧ (∀ ps, riseCount checked_fastwhisperapi_init
      ((runTrace checked_fastwhisperapi_init ps).map (·.newFlag)) ≤ 1) := by
  refine ⟨rfl, fun p => rfl, fun ps r hr => (runTrace_true_mem ps r hr).1, fun ps => ?_⟩
  simp only [checked_fastwhisperapi_init]
  induction ps with
  | nil => simp [runTrace, riseCount]
  | cons p ps ih =>
    rcases p with e | status
    · simpa [runTrace, check_fastwhisperapi, riseCount] using ih
    · by_cases hs : status = 200
      · subst hs
        simp [runTrace, check_fastwhisperapi, riseCount, riseCount_runTrace_true]
      · simpa [runTrace, check_fastwhisperapi, hs, riseCount] using ih

/-- Witness for C3 at concrete inputs: with the flag already true, a
successful probe outcome changes nothing and no probe is issued. -/
theorem checked_fastwhisperapi_flag_invariants_witness :
    (check_fastwhisperapi true (Except.ok 200)).newFlag = true
  ∧ (check_fastwhisperapi true (Except.error ())).probed = false :=
  ⟨checked_fastwhisperapi_flag_invariants.2.1 (Except.ok 200),
   checked_fastwhisperapi_flag_invariants.2.2.1 [Except.error ()]
     (check_fastwhisperapi true (Except.error ())) (by simp [runTrace])⟩

/-- Counterexample to claim C4 as stated: two invocations whose probes
both fail issue two probes in total, not at most one. -/
theorem check_fastwhisperapi_reprobe_after_failure :
    ¬ probeCount (runTrace checked_fastwhisperapi_init
        [Except.error (), Except.error ()]) ≤ 1 := by decide

/-- Claim C4 (amended): a sequence of invocations of
`check_fastwhisperapi` performs at most one successful probe; once the
flag is true no further probe is issued; a failed probe leaves the flag
unset, so the next invocation probes again. -/
theorem check_fastwhisperapi_at_most_one_successful_probe
    (ps : List (Except Unit Nat)) :
    successfulProbeCount (runTrace checked_fastwhisperapi_init ps) ≤ 1
  ∧ probeCount (runTrace true ps) = 0 := by
  refine ⟨?_, probeCount_runTrace_true ps⟩
  simp only [checked_fastwhisperapi_init]
  induction ps with
  | nil => simp [runTrace, successfulProbeCount]
  | cons p ps ih =>
    rcases p with e | status
    · simpa [runTrace, check_fastwhisperapi, successfulProbeCount_cons] using ih
    · by_cases hs : status = 200
      · subst hs
        rw [show runTrace false (Except.ok 200 :: ps) =
            ⟨Except.ok (), true, true⟩ :: runTrace true ps from by
              simp [runTrace, check_fastwhisperapi]]
        rw [successfulProbeCount_cons, successfulProbeCount_runTrace_true]
        simp
      · simpa [runTrace, check_fastwhisperapi, hs, successfulProbeCount_cons] using ih

/-- Claim C8: provider `local` returns exactly the literal placeholder
string for every credential, path, extra parameter, world and flag state,
touching no oracle and never raising. -/
theorem transcribe_audio_local_constant
    (api_key audio_file_path : String) (local_model_path : Option String)
    (w : World) (checked : Bool) :
    transcribe_audio "local" api_key audio_file_path local_model_path w checked =
      (.ok (.str "Transcribed text from local model"), checked) := rfl

/-- Claim C10: `local_model_path` is never read by any branch — two runs
differing only in it are identical. -/
theorem transcribe_audio_ignores_local_model_path
    (model api_key audio_file_path : String) (p1 p2 : Option String)
    (w : World) (checked : Bool) :
    transcribe_audio model api_key audio_file_path p1 w checked =
      transcribe_audio model api_key audio_file_path p2 w checked := rfl

theorem deepgramExtract_ok_iff (data : Json) (t : Json) :
    deepgramExtract data = .ok t ↔
      ∃ res chs c0 alts a0,
        dictGet data "results" = .ok res ∧
        dictGet res "channels" = .ok chs ∧
        listIdx chs 0 = .ok c0 ∧
        dictGet c0 "alternatives" = .ok alts ∧
        listIdx alts 0 = .ok a0 ∧
        dictGet a0 "transcript" = .ok t := by
  unfold deepgramExtract
  cases h1 : dictGet data "results" with
  | error e => simp [h1]
  | ok res =>
    cases h2 : dictGet res "channels" with
    | error e => simp [h1, h2]
    | ok chs =>
      cases h3 : listIdx chs 0 with
      | error e => simp [h1, h2, h3]
      | ok c0 =>
        cases h4 : dictGet c0 "alternatives" with
        | error e => simp [h1, h2, h3, h4]
        | ok alts =>
          cases h5 : listIdx alts 0 with
          | error e => simp [h1, h2, h3, h4, h5]
          | ok a0 => simp [h1, h2, h3, h4, h5]

/-- A world whose local transcription service replies with a `text`
field. -/
def wFast : World :=
  { emptyWorld with
    fileBytes := some [1]
    fastPost := .ok (.obj [("text", .str "hello")]) }

/-- A complete Deepgram reply carrying transcript `hi`. -/
def dataDeep : Json :=
  .obj [("results", .obj [("channels", .arr [.obj [("alternatives",
    .arr [.obj [("transcript", .str "hi")]])]])])]

/-- A world whose Deepgram call returns `dataDeep`. -/
def wDeep : World :=
  { emptyWorld with fileBytes := some [1], deepgramCall := .ok dataDeep }

/-- A world with `GEMINI_MODEL` configured and a readable audio file. -/
def wGem : World :=
  { emptyWorld with
    env := [("GEMINI_MODEL", "gemini-test")]
    fileBytes := some [77, 97, 110] }

/-- Claim C5: on an object-shaped JSON reply from the local service, the
FastWhisper adapter returns the value of the `text` field when present
and the literal fallback string when absent — in both cases without
raising. -/
theorem fastwhisperapi_text_field_extraction
    (w : World) (fields : List (String × Json)) (bs : List Nat) (v : Json)
    (hfile : w.fileBytes = some bs) (hpost : w.fastPost = .ok (.obj fields)) :
    (List.lookup "text" fields = some v →
      (_transcribe_with_fastwhisperapi w true).1 = .ok v)
  ∧ (List.lookup "text" fields = none →
      (_transcribe_with_fastwhisperapi w true).1 =
        .ok (.str "No text found in the response.")) := by
  constructor <;> intro hl <;>
    simp [_transcribe_with_fastwhisperapi, check_fastwhisperapi, hfile, hpost, jsonGet, hl]

/-- Witness for C5 at a concrete reply carrying `text = hello`. -/
theorem fastwhisperapi_text_field_extraction_witness :
    (_transcribe_with_fastwhisperapi wFast true).1 = .ok (.str "hello") :=
  (fastwhisperapi_text_field_extraction wFast [("text", .str "hello")] [1] (.str "hello")
    rfl rfl).1 rfl

/-- Claim C6: the Deepgram adapter succeeds exactly when every level of
the fixed path `results → channels[0] → alternatives[0] → transcript` is
present, returning precisely the value found there; when the chain is
broken at any level it raises instead of substituting empty text. -/
theorem deepgram_fixed_path_extraction
    (w : World) (bs : List Nat) (data : Json)
    (hfile : w.fileBytes = some bs) (hcall : w.deepgramCall = .ok data) :
    (∀ t, _transcribe_with_deepgram w = .ok t ↔
      ∃ res chs c0 alts a0,
        dictGet data "results" = .ok res ∧
        dictGet res "channels" = .ok chs ∧
        listIdx chs 0 = .ok c0 ∧
        dictGet c0 "alternatives" = .ok alts ∧
        listIdx alts 0 = .ok a0 ∧
        dictGet a0 "transcript" = .ok t)
  ∧ ((¬ ∃ t, deepgramExtract data = .ok t) →
      ∃ e, _transcribe_with_deepgram w = .error e) := by
  have hred : _transcribe_with_deepgram w = deepgramExtract data := by
    simp [_transcribe_with_deepgram, hfile, hcall]
  constructor
  · intro t
    rw [hred]
    exact deepgramExtract_ok_iff data t
  · intro hnone
    rw [hred]
    cases hE : deepgramExtract data with
    | error e => exact ⟨e, rfl⟩
    | ok t => exact absurd ⟨t, hE⟩ hnone

/-- Witness for C6 on a complete concrete reply. -/
theorem deepgram_fixed_path_extraction_witness :
    _transcribe_with_deepgram wDeep = .ok (.str "hi") :=
  ((deepgram_fixed_path_extraction wDeep [1] dataDeep rfl rfl).1 (.str "hi")).2
    ⟨_, _, _, _, _, rfl, rfl, rfl, rfl, rfl, rfl⟩

/-- Claim C7: the attachment in the request the Gemini adapter hands to
the completion call is the base64 encoding of exactly the audio bytes,
and decoding that encoding gives back the original bytes. -/
theorem gemini_attachment_base64_roundtrip
    (w : World) (api_key modelName : String) (audio_bytes : List Nat)
    (henv : List.lookup "GEMINI_MODEL" w.env = some modelName)
    (hfile : w.fileBytes = some audio_bytes)
    (hbytes : ∀ b ∈ audio_bytes, b < 256) :
    ∃ req, (_transcribe_with_gemini w api_key).2 = some req
      ∧ req.attachment = "data:audio/mp3;base64," ++ String.mk (b64encode audio_bytes)
      ∧ b64decode (b64encode audio_bytes) = some audio_bytes := by
  refine ⟨buildGeminiRequest modelName api_key audio_bytes, ?_, rfl,
    b64decode_b64encode _ hbytes⟩
  simp only [_transcribe_with_gemini, henv, hfile]
  cases hc : w.llmCompletion (buildGeminiRequest modelName api_key audio_bytes) <;>
    simp [hc]

/-- Witness for C7 on the concrete bytes `[77, 97, 110]`. -/
theorem gemini_attachment_base64_roundtrip_witness :
    ∃ req, (_transcribe_with_gemini wGem "k").2 = some req
      ∧ req.attachment = "data:audio/mp3;base64," ++ String.mk (b64encode [77, 97, 110])
      ∧ b64decode (b64encode [77, 97, 110]) = some [77, 97, 110] :=
  gemini_attachment_base64_roundtrip wGem "k" "gemini-test" [77, 97, 110] rfl rfl
    (by decide)

/-- Claim C9: the Gemini adapter's model identifier comes from the
`GEMINI_MODEL` environment entry, not from any request parameter; when
that entry is absent the adapter raises a `KeyError`, which the
dispatcher flattens into the generic failure. -/
theorem gemini_model_from_env (w : World) (api_key : String) :
    (∀ modelName audio_bytes,
      List.lookup "GEMINI_MODEL" w.env = some modelName →
      w.fileBytes = some audio_bytes →
      (_transcribe_with_gemini w api_key).2 =
        some (buildGeminiRequest modelName api_key audio_bytes)
      ∧ (buildGeminiRequest modelName api_key audio_bytes).model = modelName)
  ∧ (List.lookup "GEMINI_MODEL" w.env = none →
      (_transcribe_with_gemini w api_key).1 = .error (.keyError "GEMINI_MODEL")
      ∧ ∀ audio_file_path local_model_path checked,
        (transcribe_audio "gemini" api_key audio_file_path local_model_path w checked).1 =
          .error (.generic "Error in transcribing audio")) := by
  constructor
  · intro modelName audio_bytes henv hfile
    refine ⟨?_, rfl⟩
    simp only [_transcribe_with_gemini, henv, hfile]
    cases hc : w.llmCompletion (buildGeminiRequest modelName api_key audio_bytes) <;>
      simp [hc]
  · intro henv
    have h1 : (_transcribe_with_gemini w api_key).1 = .error (.keyError "GEMINI_MODEL") := by
      simp [_transcribe_with_gemini, henv]
    refine ⟨h1, fun audio_file_path local_model_path checked => ?_⟩
    have hb : transcribe_body "gemini" api_key audio_file_path local_model_path w checked =
        ((_transcribe_with_gemini w api_key).1, checked) := rfl
    unfold transcribe_audio
    rw [hb, h1]

/-- Witness for C9: a configured world yields the request built from the
environment's model name; an unconfigured world yields the generic
failure. -/
theorem gemini_model_from_env_witness :
    (_transcribe_with_gemini wGem "k").2 =
      some (buildGeminiRequest "gemini-test" "k" [77, 97, 110])
  ∧ (transcribe_audio "gemini" "k" "a.wav" none emptyWorld false).1 =
      .error (.generic "Error in transcribing audio") :=
  ⟨((gemini_model_from_env wGem "k").1 "gemini-test" [77, 97, 110] rfl rfl).1,
   ((gemini_model_from_env emptyWorld "k").2 rfl).2 "a.wav" none false⟩
